import Mathlib

/-!
Verification development for `timetool.py` of the littlefish library:
timezone normalization, date formatting, working-day arithmetic and
calendar-month arithmetic.

Representation choices:

* For the zone-conversion and formatting family, a naive datetime is
  represented by its position on the proleptic-Gregorian timeline, in seconds
  relative to 1970-01-01T00:00:00 (the standard bijection between civil field
  tuples and integers; `daysFromCivil`/`civilFromDays` below are the two
  directions of that bijection at day granularity).  A `datetime.date` is
  represented by its day number on the same timeline.
* For the month-arithmetic family (`add_months`, `add_months_to_date`), which
  manipulates civil fields directly and never touches zones, datetimes and
  dates are records of integer fields, with Python's constructor validation
  made explicit.

Lean's `Int` `/` and `%` are Euclidean; every division below has a positive
literal divisor, for which they agree with Python's floor-division `//` and
`%`.
-/

namespace Timetool

/-- Leap-year rule of the Gregorian calendar, as Python's `calendar.isleap`
(also the rule inside `datetime`).  The `== 0` tests are divisibility tests,
so they do not depend on the sign convention of `%`. -/
def isleap (y : ℤ) : Bool :=
  y % 4 == 0 && (y % 100 != 0 || y % 400 == 0)

/-- Number of days in a month: `calendar.monthrange(y, m)[1]` (for months in
1..12), and the upper bound on the day field enforced by the `datetime.date`
and `datetime.datetime` constructors.  Note that in Python 3,
`calendar.monthrange` computes the month length from `isleap` alone and does
not restrict the year (`calendar.weekday` substitutes an equivalent in-range
year before building any `date`), so it is total in the year argument. -/
def daysInMonth (y m : ℤ) : ℤ :=
  if m = 2 then (if isleap y then 29 else 28)
  else if m = 4 ∨ m = 6 ∨ m = 9 ∨ m = 11 then 30
  else 31

/-- Days since 1970-01-01 of the civil date `(y, m, d)` in the proleptic
Gregorian calendar (the standard `days_from_civil` algorithm; the same
bijection as Python's `date.toordinal`, shifted so that 1970-01-01 maps
to 0). -/
def daysFromCivil (y m d : ℤ) : ℤ :=
  let yy := if m ≤ 2 then y - 1 else y
  let era := yy / 400
  let yoe := yy - era * 400
  let mp := (m + 9) % 12
  let doy := (153 * mp + 2) / 5 + d - 1
  let doe := yoe * 365 + yoe / 4 - yoe / 100 + doy
  era * 146097 + doe - 719468

/-- Civil date `(y, m, d)` of a day number: the inverse direction of the
bijection (`civil_from_days`). -/
def civilFromDays (z0 : ℤ) : ℤ × ℤ × ℤ :=
  let z := z0 + 719468
  let era := z / 146097
  let doe := z - era * 146097
  let yoe := (doe - doe / 1460 + doe / 36524 - doe / 146096) / 365
  let y := yoe + era * 400
  let doy := doe - (365 * yoe + yoe / 4 - yoe / 100)
  let mp := (5 * doy + 2) / 153
  let d := doy - (153 * mp + 2) / 5 + 1
  let m := mp + (if mp < 10 then 3 else -9)
  (if m ≤ 2 then y + 1 else y, m, d)

/-- `date.weekday()` on a day number: 0 = Monday … 6 = Sunday
(1970-01-01 was a Thursday, weekday 3). -/
def pyWeekday (d : ℤ) : ℤ := (d + 3) % 7

/-- Python exceptions that the library raises or catches: `ValueError`
(raised by the `datetime` constructors and by `strftime`, and the only class
caught anywhere in the module) versus a bare `Exception` carrying a message
(raised by the zone-conversion functions; the specification names this
condition `InvalidZoneError`).  Only the fixed message text is modelled, not
the `%s`-interpolated value. -/
inductive PyErr where
  | valueError : PyErr
  | exception : String → PyErr
deriving DecidableEq, Repr

/-- A value passed to the zone-conversion / formatting functions: either a
`datetime.date` (which has no `tzinfo` attribute) identified by its day
number, or a `datetime.datetime` identified by the timeline seconds of its
civil fields together with its optional `tzinfo`, modelled by the pytz zone
name string (the `.zone` attribute the code inspects). -/
inductive TimeVal where
  | date : ℤ → TimeVal
  | dt : ℤ → Option String → TimeVal
deriving DecidableEq, Repr

/-- Day number of the last Sunday of a 31-day month `m` of year `y`. -/
def lastSunday (y m : ℤ) : ℤ :=
  let d31 := daysFromCivil y m 31
  d31 - (pyWeekday d31 + 1) % 7

/-- UTC instant at which British Summer Time starts in year `y`
(01:00 UTC on the last Sunday of March). -/
def dstStart (y : ℤ) : ℤ := 86400 * lastSunday y 3 + 3600

/-- UTC instant at which British Summer Time ends in year `y`
(01:00 UTC on the last Sunday of October). -/
def dstEnd (y : ℤ) : ℤ := 86400 * lastSunday y 10 + 3600

/-- UTC offset, in seconds, of pytz's `Europe/London` zone at the UTC
instant `t`.  Models the zone data by its current rule (in force since
1996): GMT (+0) in winter and BST (+3600) between 01:00 UTC on the last
Sunday of March and 01:00 UTC on the last Sunday of October. -/
def offsetLondon (t : ℤ) : ℤ :=
  let y := (civilFromDays (t / 86400)).1
  if dstStart y ≤ t ∧ t < dstEnd y then 3600 else 0

/-- The offset that pytz's `local.localize(naive)` (with its default
`is_dst=False`) attaches to a naive wall-clock time `s`: the standard offset
0 when consistent, otherwise BST when consistent, and for nonexistent
(spring-gap) wall-clock times the standard offset again, as `is_dst=False`
prescribes. -/
def localizeLondonOffset (s : ℤ) : ℤ :=
  if offsetLondon s = 0 then 0
  else if offsetLondon (s - 3600) = 3600 then 3600
  else 0

/-- London wall-clock time `L` denotes a unique instant: exactly one of the
two candidate offsets (GMT 0, BST 3600) is consistent at `L`, so `L` lies
neither in the spring-forward gap nor in the autumn fold.  This is the
"no DST gap or overlap" side condition of the round-trip contract. -/
def unambiguousLondon (L : ℤ) : Prop :=
  (offsetLondon L = 0 ∧ offsetLondon (L - 3600) ≠ 3600) ∨
  (offsetLondon L ≠ 0 ∧ offsetLondon (L - 3600) = 3600)

instance (L : ℤ) : Decidable (unambiguousLondon L) := by
  unfold unambiguousLondon; infer_instance

/-- `to_local_time` (timetool.py lines 19–35): a `date` is returned
unchanged; a naive datetime is localized to UTC; a datetime whose zone name
is `UTC` is used as is; any other zone name raises a bare `Exception`
(`Not a UTC time`).  The UTC instant is then converted to London wall-clock
time (`astimezone(local)`) and the zone information stripped. -/
def to_local_time : TimeVal → Except PyErr TimeVal
  | .date d => .ok (.date d)
  | .dt s tz =>
    match (match tz with
      | none => Except.ok s
      | some z =>
        if z = "UTC" then Except.ok s
        else Except.error (PyErr.exception "Not a UTC time")) with
    | .error e => .error e
    | .ok timeUtc => .ok (.dt (timeUtc + offsetLondon timeUtc) none)

/-- `to_utc_time` (timetool.py lines 38–54): a `date` is returned unchanged;
a naive datetime is localized to London time (pytz `localize`, default
`is_dst=False`); a datetime whose zone name is `Europe/London` is used as
is; any other zone name raises a bare `Exception` (`Not a local time`).
The local wall-clock time is then converted to UTC (`astimezone(utc)`) and
the zone information stripped. -/
def to_utc_time : TimeVal → Except PyErr TimeVal
  | .date d => .ok (.date d)
  | .dt s tz =>
    match (match tz with
      | none => Except.ok s
      | some z =>
        if z = "Europe/London" then Except.ok s
        else Except.error (PyErr.exception "Not a local time")) with
    | .error e => .error e
    | .ok timeLocal => .ok (.dt (timeLocal - localizeLondonOffset timeLocal) none)

/-- First day number that the `strftime` methods accept: models CPython's
`year >= 1000` requirement (the exact threshold is platform-dependent; the
library only relies on the failure being a `ValueError`). -/
def strftimeMinDay : ℤ := daysFromCivil 1000 1 1

/-- Does `strftime` raise `ValueError` on this value? -/
def strftimeFails : TimeVal → Bool
  | .date d => d < strftimeMinDay
  | .dt s _ => s < 86400 * strftimeMinDay

/-- Civil fields `(y, m, d)` of the date part of a value. -/
def civilOf : TimeVal → ℤ × ℤ × ℤ
  | .date d => civilFromDays d
  | .dt s _ => civilFromDays (s / 86400)

/-- Day number of the date part of a value. -/
def dayNumberOf : TimeVal → ℤ
  | .date d => d
  | .dt s _ => s / 86400

/-- Zero-padding to two digits, as `%d` / `%m`. -/
def pad2 (n : ℤ) : String :=
  if 0 ≤ n ∧ n < 10 then "0" ++ toString n else toString n

/-- `%B` month names in the fixed (English) locale. -/
def monthName (m : ℤ) : String :=
  if m = 1 then "January" else if m = 2 then "February"
  else if m = 3 then "March" else if m = 4 then "April"
  else if m = 5 then "May" else if m = 6 then "June"
  else if m = 7 then "July" else if m = 8 then "August"
  else if m = 9 then "September" else if m = 10 then "October"
  else if m = 11 then "November" else "December"

/-- `%A` weekday names in the fixed (English) locale (0 = Monday). -/
def weekdayName (w : ℤ) : String :=
  if w = 0 then "Monday" else if w = 1 then "Tuesday"
  else if w = 2 then "Wednesday" else if w = 3 then "Thursday"
  else if w = 4 then "Friday" else if w = 5 then "Saturday"
  else "Sunday"

/-- `strftime('%d/%m/%Y')`, fallible. -/
def strftimeShortDate (v : TimeVal) : Except PyErr String :=
  if strftimeFails v then .error .valueError
  else
    let c := civilOf v
    .ok (pad2 c.2.2 ++ "/" ++ pad2 c.2.1 ++ "/" ++ toString c.1)

/-- `strftime('%A %d %B %Y')`, fallible. -/
def strftimeLongDate (v : TimeVal) : Except PyErr String :=
  if strftimeFails v then .error .valueError
  else
    let c := civilOf v
    .ok (weekdayName (pyWeekday (dayNumberOf v)) ++ " " ++ pad2 c.2.2 ++ " " ++
      monthName c.2.1 ++ " " ++ toString c.1)

/-- `strftime('%d %B %Y')`, fallible. -/
def strftimeLongDateNoDay (v : TimeVal) : Except PyErr String :=
  if strftimeFails v then .error .valueError
  else
    let c := civilOf v
    .ok (pad2 c.2.2 ++ " " ++ monthName c.2.1 ++ " " ++ toString c.1)

/-- `format_date` (timetool.py lines 79–91): a missing (falsy) input renders
`''` — a `datetime`/`date` object is always truthy, so only `None` takes
that branch; otherwise optionally convert to local time and render
`%d/%m/%Y`.  A `ValueError` escaping the `try` body is caught and renders
`'????'`; any other exception propagates.  The `convert_to_local` flag
defaults to true in Python; it is passed explicitly here. -/
def format_date (v : Option TimeVal) (convert_to_local : Bool) : Except PyErr String :=
  match v with
  | none => .ok ""
  | some t =>
    let body : Except PyErr String :=
      if convert_to_local then
        match to_local_time t with
        | .ok localDt => strftimeShortDate localDt
        | .error e => .error e
      else strftimeShortDate t
    match body with
    | .ok s => .ok s
    | .error .valueError => .ok "????"
    | .error e => .error e

/-- `format_date_long` (timetool.py lines 94–106): as `format_date` with the
`'%A %d %B %Y'` format. -/
def format_date_long (v : Option TimeVal) (convert_to_local : Bool) : Except PyErr String :=
  match v with
  | none => .ok ""
  | some t =>
    let body : Except PyErr String :=
      if convert_to_local then
        match to_local_time t with
        | .ok localDt => strftimeLongDate localDt
        | .error e => .error e
      else strftimeLongDate t
    match body with
    | .ok s => .ok s
    | .error .valueError => .ok "????"
    | .error e => .error e

/-- `format_date_long_no_day` (timetool.py lines 109–121): as `format_date`
with the `'%d %B %Y'` format. -/
def format_date_long_no_day (v : Option TimeVal) (convert_to_local : Bool) : Except PyErr String :=
  match v with
  | none => .ok ""
  | some t =>
    let body : Except PyErr String :=
      if convert_to_local then
        match to_local_time t with
        | .ok localDt => strftimeLongDateNoDay localDt
        | .error e => .error e
      else strftimeLongDateNoDay t
    match body with
    | .ok s => .ok s
    | .error .valueError => .ok "????"
    | .error e => .error e

/-- The inner `while` of `add_working_days` (timetool.py lines 130–131):
keep advancing one day while the day is Sunday, or Saturday when Saturdays
are excluded. -/
def skipNonWorking (include_saturday : Bool) (d : ℤ) : ℤ :=
  if h : pyWeekday d = 6 ∨ (include_saturday = false ∧ pyWeekday d = 5) then
    skipNonWorking include_saturday (d + 1)
  else d
termination_by ((if pyWeekday d = 5 then 2 else if pyWeekday d = 6 then 1 else 0 : ℕ))
decreasing_by
  simp only [pyWeekday] at h ⊢
  rcases h with h | ⟨_hb, h⟩ <;> split_ifs <;> omega

/-- The `for i in range(num_days)` loop of `add_working_days` (lines
128–131): each iteration advances one day, then skips non-working days. -/
def workingDaysLoop (include_saturday : Bool) : Nat → ℤ → ℤ
  | 0, d => d
  | n + 1, d => workingDaysLoop include_saturday n (skipNonWorking include_saturday (d + 1))

/-- `add_working_days` (timetool.py lines 124–133) on an explicit start date
given as a day number; `range(n)` iterates `max n 0` times, hence `toNat`.
The Python default `date=None` (meaning today) is not modelled, no claim
mentions it. -/
def add_working_days (num_days : ℤ) (date : ℤ) (include_saturday : Bool) : ℤ :=
  workingDaysLoop include_saturday num_days.toNat date

/-- A Python `datetime.datetime` as a record of civil fields.  The
`microsecond` field is part of Python's value; it matters here because
`add_months` never passes it on to the result constructor. -/
structure DateTime where
  year : ℤ
  month : ℤ
  day : ℤ
  hour : ℤ
  minute : ℤ
  second : ℤ
  microsecond : ℤ
deriving DecidableEq, Repr

/-- A Python `datetime.date` as a record of civil fields. -/
structure Date where
  year : ℤ
  month : ℤ
  day : ℤ
deriving DecidableEq, Repr

/-- Validity condition enforced by the `datetime.datetime` constructor:
`MINYEAR = 1 ≤ year ≤ MAXYEAR = 9999`, month in range, day in range for the
(possibly leap) month, and time fields in range. -/
def validDateTime (y m d h mi s micro : ℤ) : Prop :=
  1 ≤ y ∧ y ≤ 9999 ∧ 1 ≤ m ∧ m ≤ 12 ∧ 1 ≤ d ∧ d ≤ daysInMonth y m ∧
  0 ≤ h ∧ h ≤ 23 ∧ 0 ≤ mi ∧ mi ≤ 59 ∧ 0 ≤ s ∧ s ≤ 59 ∧
  0 ≤ micro ∧ micro ≤ 999999

instance (y m d h mi s micro : ℤ) : Decidable (validDateTime y m d h mi s micro) := by
  unfold validDateTime; infer_instance

/-- The record is a value the `datetime.datetime` constructor could have
produced; every Python datetime satisfies this. -/
def DateTime.Valid (t : DateTime) : Prop :=
  validDateTime t.year t.month t.day t.hour t.minute t.second t.microsecond

instance (t : DateTime) : Decidable t.Valid := by
  unfold DateTime.Valid; infer_instance

/-- The `datetime.datetime(y, m, d, h, mi, s)` constructor call as written in
`add_months`: six positional arguments, so the omitted `microsecond` is 0;
it returns the record or raises `ValueError`. -/
def mkDatetime (y m d h mi s : ℤ) : Except PyErr DateTime :=
  if validDateTime y m d h mi s 0 then .ok ⟨y, m, d, h, mi, s, 0⟩
  else .error .valueError

/-- Validity condition enforced by the `datetime.date` constructor. -/
def validDate (y m d : ℤ) : Prop :=
  1 ≤ y ∧ y ≤ 9999 ∧ 1 ≤ m ∧ m ≤ 12 ∧ 1 ≤ d ∧ d ≤ daysInMonth y m

instance (y m d : ℤ) : Decidable (validDate y m d) := by
  unfold validDate; infer_instance

/-- The `datetime.date(y, m, d)` constructor: the record, or `ValueError`. -/
def mkDate (y m d : ℤ) : Except PyErr Date :=
  if validDate y m d then .ok ⟨y, m, d⟩ else .error .valueError

/-- The `while new_month < 1` loop of `add_months` (lines 157–159) and
`add_months_to_date` (lines 193–195). -/
def monthLoopDown (nm years : ℤ) : ℤ × ℤ :=
  if h : nm < 1 then monthLoopDown (nm + 12) (years - 1) else (nm, years)
termination_by (1 - nm).toNat
decreasing_by omega

/-- The `while new_month > 12` loop of `add_months` (lines 161–163) and
`add_months_to_date` (lines 197–199). -/
def monthLoopUp (nm years : ℤ) : ℤ × ℤ :=
  if h : nm > 12 then monthLoopUp (nm - 12) (years + 1) else (nm, years)
termination_by (nm - 12).toNat
decreasing_by omega

/-- Lines 153–166 of `add_months` (and the identical lines 189–202 of
`add_months_to_date`): the normalized target `(new_month, year)` reached by
adding `months` months to civil month `month` of year `year0`. -/
def monthsTarget (months month year0 : ℤ) : ℤ × ℤ :=
  let p := monthLoopDown (month + months) 0
  let q := monthLoopUp p.1 p.2
  (q.1, year0 + q.2)

/-- `add_months` (timetool.py lines 151–184).  The constructor call in the
`try` either succeeds or raises `ValueError` (day beyond the end of the
target month, or year out of range).  The handler rolls forward to the 1st
of the following month when `months > 0`, and otherwise clamps to
`calendar.monthrange(year, new_month)[1]` (= `daysInMonth`); the handler's
own constructor calls stand outside the `try`, so their `ValueError`s
propagate to the caller. -/
def add_months (months : ℤ) (timestamp : DateTime) : Except PyErr DateTime :=
  let t := monthsTarget months timestamp.month timestamp.year
  match mkDatetime t.2 t.1 timestamp.day timestamp.hour timestamp.minute timestamp.second with
  | .ok r => .ok r
  | .error .valueError =>
    if months > 0 then
      let q := if t.1 + 1 > 12 then (t.1 + 1 - 12, t.2 + 1) else (t.1 + 1, t.2)
      mkDatetime q.2 q.1 1 timestamp.hour timestamp.minute timestamp.second
    else
      mkDatetime t.2 t.1 (daysInMonth t.2 t.1) timestamp.hour timestamp.minute timestamp.second
  | .error e => .error e

/-- Result of `add_months_to_date`: the `try` branch returns a
`datetime.date`, but both `except` branches construct `datetime.datetime`
values. -/
inductive DateResult where
  | date : Date → DateResult
  | datetime : DateTime → DateResult
deriving DecidableEq, Repr

/-- `add_months_to_date` (timetool.py lines 187–220): same month
normalization as `add_months`, but the `try` constructs a `datetime.date`;
the two fallback branches call `datetime.datetime(year, month, day)` — not
`datetime.date` — so they produce a datetime at midnight. -/
def add_months_to_date (months : ℤ) (date : Date) : Except PyErr DateResult :=
  let t := monthsTarget months date.month date.year
  match mkDate t.2 t.1 date.day with
  | .ok r => .ok (.date r)
  | .error .valueError =>
    if months > 0 then
      let q := if t.1 + 1 > 12 then (t.1 + 1 - 12, t.2 + 1) else (t.1 + 1, t.2)
      (mkDatetime q.2 q.1 1 0 0 0).map .datetime
    else
      (mkDatetime t.2 t.1 (daysInMonth t.2 t.1) 0 0 0).map .datetime
  | .error e => .error e

/-- The state of the module after `import`: CPython evaluates the
default-argument expression `datetime.datetime.utcnow()` on line 151 exactly
once, when the `def add_months(...)` statement itself executes, and stores
the resulting value in the function object. -/
structure ModuleState where
  addMonthsDefault : DateTime
deriving Repr

/-- Importing the module at instant `loadTime` captures `utcnow()` once. -/
def loadModule (loadTime : DateTime) : ModuleState := ⟨loadTime⟩

/-- A call `add_months(months)` with the timestamp argument omitted, made
when the wall clock reads `_now`: CPython substitutes the default stored in
the function object, so the current time never enters the computation. -/
def callAddMonthsNoArg (st : ModuleState) (months : ℤ) (_now : DateTime) :
    Except PyErr DateTime :=
  add_months months st.addMonthsDefault

end Timetool

namespace Timetool

/-- The London offset is always either GMT (0) or BST (3600). -/
theorem offsetLondon_cases (t : ℤ) : offsetLondon t = 0 ∨ offsetLondon t = 3600 := by
  simp only [offsetLondon]
  split_ifs <;> simp

/-- Every month length lies between 28 and 31. -/
theorem daysInMonth_bounds (y m : ℤ) : 28 ≤ daysInMonth y m ∧ daysInMonth y m ≤ 31 := by
  unfold daysInMonth
  split_ifs <;> omega

/-- December always has 31 days (so a valid day-of-month never overflows a
December target, and the rollover branch never wraps past a year end). -/
theorem daysInMonth_december (y : ℤ) : daysInMonth y 12 = 31 := by
  norm_num [daysInMonth]

/-- The `while new_month < 1` loop leaves the month at least 1. -/
theorem monthLoopDown_fst_ge_one (nm years : ℤ) : 1 ≤ (monthLoopDown nm years).1 := by
  suffices h : ∀ (k : ℕ) (nm years : ℤ), (1 - nm).toNat ≤ k → 1 ≤ (monthLoopDown nm years).1 from
    h _ nm years le_rfl
  intro k
  induction k with
  | zero =>
    intro nm years hk
    rw [monthLoopDown, dif_neg (by omega)]
    show 1 ≤ nm
    omega
  | succ k ih =>
    intro nm years hk
    rw [monthLoopDown]
    by_cases h : nm < 1
    · rw [dif_pos h]
      exact ih _ _ (by omega)
    · rw [dif_neg h]
      show 1 ≤ nm
      omega

/-- Starting from a month of at least 1, the `while new_month > 12` loop
lands in 1..12. -/
theorem monthLoopUp_fst_range (nm years : ℤ) (h1 : 1 ≤ nm) :
    1 ≤ (monthLoopUp nm years).1 ∧ (monthLoopUp nm years).1 ≤ 12 := by
  suffices h : ∀ (k : ℕ) (nm years : ℤ), (nm - 12).toNat ≤ k → 1 ≤ nm →
      1 ≤ (monthLoopUp nm years).1 ∧ (monthLoopUp nm years).1 ≤ 12 from
    h _ nm years le_rfl h1
  intro k
  induction k with
  | zero =>
    intro nm years hk hge
    rw [monthLoopUp, dif_neg (by omega)]
    exact ⟨by omega, by omega⟩
  | succ k ih =>
    intro nm years hk hge
    rw [monthLoopUp]
    by_cases h : nm > 12
    · rw [dif_pos h]
      exact ih _ _ (by omega) (by omega)
    · rw [dif_neg h]
      exact ⟨by omega, by omega⟩

/-- The normalized target month always lies in 1..12, whatever the input. -/
theorem monthsTarget_fst_range (months month year0 : ℤ) :
    1 ≤ (monthsTarget months month year0).1 ∧ (monthsTarget months month year0).1 ≤ 12 := by
  have h1 := monthLoopDown_fst_ge_one (month + months) 0
  have h2 := monthLoopUp_fst_range (monthLoopDown (month + months) 0).1
    (monthLoopDown (month + months) 0).2 h1
  simpa [monthsTarget] using h2

/-- Characterization of a successful `datetime.datetime` constructor call. -/
theorem mkDatetime_ok_iff (y m d h mi s : ℤ) (r : DateTime) :
    mkDatetime y m d h mi s = .ok r ↔ validDateTime y m d h mi s 0 ∧ r = ⟨y, m, d, h, mi, s, 0⟩ := by
  unfold mkDatetime
  split_ifs with hv <;> simp [hv, eq_comm]

end Timetool

namespace Timetool

/-- C5 (amended): whenever the day-of-month overflow edge case fires and
`add_months` produces a result at all, the result carries the input's hour,
minute and second unchanged; the microsecond component is not passed on to
the constructor, so it is zeroed rather than preserved — time-of-day is kept
only to second precision. -/
theorem add_months_overflow_keeps_hms :
    ∀ (n : ℤ) (ts : DateTime) (targetMonth targetYear : ℤ) (r : DateTime),
      monthsTarget n ts.month ts.year = (targetMonth, targetYear) →
      daysInMonth targetYear targetMonth < ts.day →
      add_months n ts = .ok r →
      r.hour = ts.hour ∧ r.minute = ts.minute ∧ r.second = ts.second ∧ r.microsecond = 0 := by
  intro n ts m' y' r ht hov hr
  simp only [add_months, ht] at hr
  rcases e : mkDatetime y' m' ts.day ts.hour ts.minute ts.second with e1 | r0
  · rw [e] at hr
    rcases e1 with _ | msg
    · simp only at hr
      split at hr
      · split at hr
        · rcases (mkDatetime_ok_iff _ _ _ _ _ _ _).1 hr with ⟨_, hre⟩
          subst hre
          exact ⟨rfl, rfl, rfl, rfl⟩
        · rcases (mkDatetime_ok_iff _ _ _ _ _ _ _).1 hr with ⟨_, hre⟩
          subst hre
          exact ⟨rfl, rfl, rfl, rfl⟩
      · rcases (mkDatetime_ok_iff _ _ _ _ _ _ _).1 hr with ⟨_, hre⟩
        subst hre
        exact ⟨rfl, rfl, rfl, rfl⟩
    · exact Except.noConfusion hr
  · rw [e] at hr
    simp only [Except.ok.injEq] at hr
    rcases (mkDatetime_ok_iff _ _ _ _ _ _ _).1 e with ⟨_, hre⟩
    subst hr
    subst hre
    exact ⟨rfl, rfl, rfl, rfl⟩

/-- C5 witness: the general statement applied to `add_months(1, 2024-01-30
12:34:56)`, whose overflow branch fires and returns 2024-03-01 12:34:56. -/
theorem add_months_overflow_keeps_hms_witness :
    (12 : ℤ) = (⟨2024, 3, 1, 12, 34, 56, 0⟩ : DateTime).hour ∧
    add_months 1 ⟨2024, 1, 30, 12, 34, 56, 0⟩ = .ok ⟨2024, 3, 1, 12, 34, 56, 0⟩ ∧
    (⟨2024, 3, 1, 12, 34, 56, 0⟩ : DateTime).hour = (12 : ℤ) := by
  have hadd : add_months 1 ⟨2024, 1, 30, 12, 34, 56, 0⟩ = .ok ⟨2024, 3, 1, 12, 34, 56, 0⟩ := by
    simp +decide [add_months, monthsTarget, monthLoopDown, monthLoopUp, mkDatetime]
  have h := add_months_overflow_keeps_hms 1 ⟨2024, 1, 30, 12, 34, 56, 0⟩ 2 2024
    ⟨2024, 3, 1, 12, 34, 56, 0⟩
    (by simp [monthsTarget, monthLoopDown, monthLoopUp])
    (by decide)
    hadd
  exact ⟨h.1.symm, hadd, h.1⟩

/-- C5 counterexample to the claim as stated: for input time
12:00:00.500000 the overflow edge case fires (target February 2024 is too
short for day 30) and the result's time-of-day is 12:00:00.000000 — the
microsecond part of the time-of-day is not preserved. -/
theorem add_months_drops_microseconds :
    monthsTarget 1 1 2024 = (2, 2024) ∧
    daysInMonth 2024 2 < 30 ∧
    add_months 1 ⟨2024, 1, 30, 12, 0, 0, 500000⟩ = .ok ⟨2024, 3, 1, 12, 0, 0, 0⟩ := by
  refine ⟨by simp [monthsTarget, monthLoopDown, monthLoopUp], by decide, ?_⟩
  simp +decide [add_months, monthsTarget, monthLoopDown, monthLoopUp, mkDatetime]

/-- C6: on both day-of-month-overflow branches `add_months_to_date` returns
a `datetime.datetime` (midnight time-of-day and all), not a date-only value
as its name, docstring and non-overflow branch promise: the fallback code
calls `datetime.datetime(...)` where `datetime.date(...)` was meant. -/
theorem add_months_to_date_returns_datetime :
    add_months_to_date 1 ⟨2024, 1, 30⟩ = .ok (.datetime ⟨2024, 3, 1, 0, 0, 0, 0⟩) ∧
    add_months_to_date (-1) ⟨2024, 3, 30⟩ = .ok (.datetime ⟨2024, 2, 29, 0, 0, 0, 0⟩) := by
  constructor <;>
    simp +decide [add_months_to_date, monthsTarget, monthLoopDown, monthLoopUp, mkDate,
      mkDatetime, Except.map]

/-- C10: the default timestamp of `add_months` is a single instant captured
when the module is loaded.  Two argument-omitting calls made at any two
different wall-clock times return the same value, and that value is
`add_months` of the load-time instant — not of the time of either call. -/
theorem add_months_default_frozen :
    ∀ (load : DateTime) (m : ℤ) (now1 now2 : DateTime),
      callAddMonthsNoArg (loadModule load) m now1 = callAddMonthsNoArg (loadModule load) m now2 ∧
      callAddMonthsNoArg (loadModule load) m now1 = add_months m load :=
  fun _ _ _ _ => ⟨rfl, rfl⟩

end Timetool

namespace Timetool

/-- C4: for every naive UTC instant whose London form is unambiguous (no
DST gap or overlap), `to_utc(to_local(I)) = I`; symmetrically, for every
naive local instant that is unambiguous, `to_local(to_utc(I)) = I`. -/
theorem zone_conversion_roundtrip :
    (∀ t : ℤ, unambiguousLondon (t + offsetLondon t) →
      (to_local_time (.dt t none)).bind to_utc_time = .ok (.dt t none)) ∧
    (∀ s : ℤ, unambiguousLondon s →
      (to_utc_time (.dt s none)).bind to_local_time = .ok (.dt s none)) := by
  constructor
  · intro t hu
    have hc := offsetLondon_cases t
    show to_utc_time (.dt (t + offsetLondon t) none) = .ok (.dt t none)
    show Except.ok (TimeVal.dt ((t + offsetLondon t) - localizeLondonOffset (t + offsetLondon t)) none) =
      .ok (.dt t none)
    have key : (t + offsetLondon t) - localizeLondonOffset (t + offsetLondon t) = t := by
      unfold localizeLondonOffset
      rcases hu with ⟨h0, hne⟩ | ⟨hne, h36⟩
      · rw [if_pos h0]
        rcases hc with hc | hc
        · omega
        · exfalso
          apply hne
          rw [show t + offsetLondon t - 3600 = t by omega]
          exact hc
      · rw [if_neg hne, if_pos h36]
        rcases hc with hc | hc
        · exfalso
          apply hne
          rw [show t + offsetLondon t = t by omega]
          exact hc
        · omega
    rw [key]
  · intro s hu
    show to_local_time (.dt (s - localizeLondonOffset s) none) = .ok (.dt s none)
    show Except.ok (TimeVal.dt ((s - localizeLondonOffset s) + offsetLondon (s - localizeLondonOffset s)) none) =
      .ok (.dt s none)
    have key : (s - localizeLondonOffset s) + offsetLondon (s - localizeLondonOffset s) = s := by
      unfold localizeLondonOffset
      rcases hu with ⟨h0, _⟩ | ⟨hne, h36⟩
      · rw [if_pos h0]
        simp only [sub_zero]
        omega
      · rw [if_neg hne, if_pos h36]
        rw [h36]
        ring
    rw [key]

/-- C4 witness: both round-trip directions at concrete winter instants
(1970-01-01 and 1970-01-02, far from any DST transition). -/
theorem zone_conversion_roundtrip_witness :
    ((to_local_time (.dt 0 none)).bind to_utc_time = .ok (.dt 0 none)) ∧
    ((to_utc_time (.dt 86400 none)).bind to_local_time = .ok (.dt 86400 none)) :=
  ⟨zone_conversion_roundtrip.1 0 (by decide), zone_conversion_roundtrip.2 86400 (by decide)⟩

/-- C3: `to_local_time` on a datetime tagged with any zone other than `UTC`,
and `to_utc_time` on one tagged with any zone other than `Europe/London`,
fail with the error the specification names `InvalidZoneError` (a bare
`Exception` with the corresponding message).  It propagates to callers: in
particular `format_date`'s `except ValueError` does not catch it. -/
theorem zone_mismatch_raises :
    (∀ (s : ℤ) (z : String), z ≠ "UTC" →
      to_local_time (.dt s (some z)) = .error (.exception "Not a UTC time")) ∧
    (∀ (s : ℤ) (z : String), z ≠ "Europe/London" →
      to_utc_time (.dt s (some z)) = .error (.exception "Not a local time")) ∧
    (∀ (s : ℤ) (z : String), z ≠ "UTC" →
      format_date (some (.dt s (some z))) true = .error (.exception "Not a UTC time")) := by
  refine ⟨?_, ?_, ?_⟩
  · intro s z hz
    simp only [to_local_time]
    rw [if_neg hz]
  · intro s z hz
    simp only [to_utc_time]
    rw [if_neg hz]
  · intro s z hz
    simp only [format_date, to_local_time]
    rw [if_neg hz]
    rfl

/-- C3 witness: all three conjuncts at the concrete third zone
`US/Eastern`. -/
theorem zone_mismatch_raises_witness :
    to_local_time (.dt 0 (some "US/Eastern")) = .error (.exception "Not a UTC time") ∧
    to_utc_time (.dt 0 (some "US/Eastern")) = .error (.exception "Not a local time") ∧
    format_date (some (.dt 0 (some "US/Eastern"))) true = .error (.exception "Not a UTC time") :=
  ⟨zone_mismatch_raises.1 0 "US/Eastern" (by decide),
   zone_mismatch_raises.2.1 0 "US/Eastern" (by decide),
   zone_mismatch_raises.2.2 0 "US/Eastern" (by decide)⟩

/-- C8: a date-only value (no `tzinfo` attribute) is returned unchanged by
both conversion functions. -/
theorem date_values_unchanged (d : ℤ) :
    to_local_time (.date d) = .ok (.date d) ∧ to_utc_time (.date d) = .ok (.date d) :=
  ⟨rfl, rfl⟩

end Timetool

namespace Timetool

/-- C7: whenever the strftime rendering of the value actually rendered (the
converted value when `convert_to_local` is set, the input itself otherwise)
fails with a `ValueError`, each of the three date-only formatters catches it
internally and returns the placeholder string of four question marks; the
error is not propagated. -/
theorem formatters_catch_strftime_failure :
    ∀ (v : TimeVal) (conv : Bool),
      (if conv then ∃ lv, to_local_time v = .ok lv ∧ strftimeFails lv = true
       else strftimeFails v = true) →
      format_date (some v) conv = .ok "????" ∧
      format_date_long (some v) conv = .ok "????" ∧
      format_date_long_no_day (some v) conv = .ok "????" := by
  intro v conv hc
  cases conv with
  | false =>
    simp only [Bool.false_eq_true, if_false] at hc
    refine ⟨?_, ?_, ?_⟩ <;>
      simp [format_date, format_date_long, format_date_long_no_day,
        strftimeShortDate, strftimeLongDate, strftimeLongDateNoDay, hc]
  | true =>
    simp only [if_true] at hc
    obtain ⟨lv, hl, hf⟩ := hc
    refine ⟨?_, ?_, ?_⟩ <;>
      simp [format_date, format_date_long, format_date_long_no_day, hl,
        strftimeShortDate, strftimeLongDate, strftimeLongDateNoDay, hf]

/-- C7 witness: the three formatters on a year-800 timestamp, whose
rendering fails in the modelled `strftime`. -/
theorem formatters_catch_strftime_failure_witness :
    format_date (some (.dt (86400 * daysFromCivil 800 1 1) none)) true = .ok "????" ∧
    format_date_long (some (.dt (86400 * daysFromCivil 800 1 1) none)) true = .ok "????" ∧
    format_date_long_no_day (some (.dt (86400 * daysFromCivil 800 1 1) none)) true = .ok "????" :=
  formatters_catch_strftime_failure (.dt (86400 * daysFromCivil 800 1 1) none) true
    (by exact ⟨.dt (86400 * daysFromCivil 800 1 1 +
        offsetLondon (86400 * daysFromCivil 800 1 1)) none, rfl, by decide⟩)

/-- C9: 2024-01-01 is a Monday, and `add_working_days(5, 2024-01-01,
include_saturday=False)` lands on Monday 2024-01-08, skipping the
intervening Saturday and Sunday. -/
theorem add_working_days_monday_example :
    pyWeekday (daysFromCivil 2024 1 1) = 0 ∧
    pyWeekday (daysFromCivil 2024 1 8) = 0 ∧
    add_working_days 5 (daysFromCivil 2024 1 1) false = daysFromCivil 2024 1 8 := by
  refine ⟨by decide, by decide, ?_⟩
  simp +decide [add_working_days, workingDaysLoop, skipNonWorking]

end Timetool

namespace Timetool

/-- C1 (amended): when adding `n > 0` months makes the computed target
month too short for the input's day-of-month, `add_months` returns the 1st
of the month after the target month — provided the computed target year is
within the representable range 1..9999 (the proviso the unqualified claim
lacks); in particular `add_months(1, 2024-01-30)` is 2024-03-01. -/
theorem add_months_forward_rollover :
    (∀ (n : ℤ) (ts : DateTime) (targetMonth targetYear : ℤ), ts.Valid → 0 < n →
      monthsTarget n ts.month ts.year = (targetMonth, targetYear) →
      daysInMonth targetYear targetMonth < ts.day →
      1 ≤ targetYear → targetYear ≤ 9999 →
      add_months n ts =
        .ok ⟨targetYear, targetMonth + 1, 1, ts.hour, ts.minute, ts.second, 0⟩) ∧
    add_months 1 ⟨2024, 1, 30, 0, 0, 0, 0⟩ = .ok ⟨2024, 3, 1, 0, 0, 0, 0⟩ := by
  constructor
  · intro n ts m' y' hv hn ht hov hy1 hy2
    have hm := monthsTarget_fst_range n ts.month ts.year
    rw [ht] at hm
    simp only at hm
    unfold DateTime.Valid validDateTime at hv
    have hb := daysInMonth_bounds ts.year ts.month
    have hb2 := daysInMonth_bounds y' (m' + 1)
    have hm12 : m' ≤ 11 := by
      by_contra hc
      have he : m' = 12 := by omega
      rw [he, daysInMonth_december] at hov
      omega
    have h1 : mkDatetime y' m' ts.day ts.hour ts.minute ts.second = .error .valueError := by
      unfold mkDatetime
      rw [if_neg]
      intro hvd
      unfold validDateTime at hvd
      omega
    have h3 : mkDatetime y' (m' + 1) 1 ts.hour ts.minute ts.second =
        .ok ⟨y', m' + 1, 1, ts.hour, ts.minute, ts.second, 0⟩ := by
      unfold mkDatetime
      rw [if_pos]
      unfold validDateTime
      omega
    simp only [add_months, ht, h1]
    rw [if_pos hn]
    rw [if_neg (by omega : ¬ (m' + 1 > 12))]
    exact h3
  · simp +decide [add_months, monthsTarget, monthLoopDown, monthLoopUp, mkDatetime]

/-- C1 witness: the general statement applied to `add_months(1, 2024-01-30
11:22:33)`. -/
theorem add_months_forward_rollover_witness :
    add_months 1 ⟨2024, 1, 30, 11, 22, 33, 0⟩ = .ok ⟨2024, 3, 1, 11, 22, 33, 0⟩ :=
  add_months_forward_rollover.1 1 ⟨2024, 1, 30, 11, 22, 33, 0⟩ 2 2024
    (by decide)
    (by norm_num)
    (by simp [monthsTarget, monthLoopDown, monthLoopUp])
    (by decide)
    (by norm_num)
    (by norm_num)

/-- C1 counterexample to the unqualified claim: `add_months(13, 9999-01-30)`
satisfies the claim's premise — the input is a valid timestamp, `n > 0`, and
the computed target month (February 10000, 29 days) has no day 30 — yet the
call raises `ValueError` (year 10000 exceeds `MAXYEAR` in the fallback
constructor) instead of returning 10000-03-01. -/
theorem add_months_forward_rollover_out_of_range :
    (⟨9999, 1, 30, 0, 0, 0, 0⟩ : DateTime).Valid ∧
    monthsTarget 13 1 9999 = (2, 10000) ∧
    daysInMonth 10000 2 < 30 ∧
    add_months 13 ⟨9999, 1, 30, 0, 0, 0, 0⟩ = .error .valueError := by
  refine ⟨by decide, by simp [monthsTarget, monthLoopDown, monthLoopUp], by decide, ?_⟩
  simp +decide [add_months, monthsTarget, monthLoopDown, monthLoopUp, mkDatetime]

/-- C2 (amended): when subtracting (`n < 0`) makes the computed target
month too short for the input's day-of-month, `add_months` clamps to the
last valid day of the target month — provided the computed target year is
within the representable range 1..9999 (the proviso the unqualified claim
lacks); in particular `add_months(-1, 2024-03-30)` is 2024-02-29. -/
theorem add_months_backward_clamp :
    (∀ (n : ℤ) (ts : DateTime) (targetMonth targetYear : ℤ), ts.Valid → n < 0 →
      monthsTarget n ts.month ts.year = (targetMonth, targetYear) →
      daysInMonth targetYear targetMonth < ts.day →
      1 ≤ targetYear → targetYear ≤ 9999 →
      add_months n ts =
        .ok ⟨targetYear, targetMonth, daysInMonth targetYear targetMonth,
          ts.hour, ts.minute, ts.second, 0⟩) ∧
    add_months (-1) ⟨2024, 3, 30, 0, 0, 0, 0⟩ = .ok ⟨2024, 2, 29, 0, 0, 0, 0⟩ := by
  constructor
  · intro n ts m' y' hv hn ht hov hy1 hy2
    have hm := monthsTarget_fst_range n ts.month ts.year
    rw [ht] at hm
    simp only at hm
    unfold DateTime.Valid validDateTime at hv
    have hb2 := daysInMonth_bounds y' m'
    have h1 : mkDatetime y' m' ts.day ts.hour ts.minute ts.second = .error .valueError := by
      unfold mkDatetime
      rw [if_neg]
      intro hvd
      unfold validDateTime at hvd
      omega
    have h3 : mkDatetime y' m' (daysInMonth y' m') ts.hour ts.minute ts.second =
        .ok ⟨y', m', daysInMonth y' m', ts.hour, ts.minute, ts.second, 0⟩ := by
      unfold mkDatetime
      rw [if_pos]
      unfold validDateTime
      omega
    simp only [add_months, ht, h1]
    rw [if_neg (by omega : ¬ (n > 0))]
    exact h3
  · simp +decide [add_months, monthsTarget, monthLoopDown, monthLoopUp, mkDatetime]

/-- C2 witness: the general statement applied to `add_months(-1, 2024-03-30
07:08:09)`. -/
theorem add_months_backward_clamp_witness :
    add_months (-1) ⟨2024, 3, 30, 7, 8, 9, 0⟩ = .ok ⟨2024, 2, 29, 7, 8, 9, 0⟩ := by
  have h := add_months_backward_clamp.1 (-1) ⟨2024, 3, 30, 7, 8, 9, 0⟩ 2 2024
    (by decide)
    (by norm_num)
    (by simp [monthsTarget, monthLoopDown, monthLoopUp])
    (by decide)
    (by norm_num)
    (by norm_num)
  simpa using h

/-- C2 counterexample to the unqualified claim: `add_months(-13, 0001-03-30)`
satisfies the claim's premise — the input is a valid timestamp, `n < 0`, and
the computed target month (February of year 0, 29 days by the proleptic
rule) has no day 30 — yet the call raises `ValueError` (year 0 is below
`MINYEAR` in the clamping constructor) instead of returning the last valid
day of that month. -/
theorem add_months_backward_clamp_out_of_range :
    (⟨1, 3, 30, 0, 0, 0, 0⟩ : DateTime).Valid ∧
    monthsTarget (-13) 3 1 = (2, 0) ∧
    daysInMonth 0 2 < 30 ∧
    add_months (-13) ⟨1, 3, 30, 0, 0, 0, 0⟩ = .error .valueError := by
  refine ⟨by decide, by simp [monthsTarget, monthLoopDown, monthLoopUp], by decide, ?_⟩
  simp +decide [add_months, monthsTarget, monthLoopDown, monthLoopUp, mkDatetime]

end Timetool
